import Mathlib

/-!
Verification of the cubeb-coreaudio-rs stream-lifecycle and
device-reconfiguration engine.

The definitions below are a shallow embedding of the code in
`src/backend/mod.rs` and `coreaudio-sys-utils/src/dispatch.rs`.
HAL calls (CoreAudio property reads and writes) are modelled by explicit
oracle records giving each call's outcome, and each embedded function
returns both its result and the observable trace the claims talk about.
-/

/-! ## Serial task queue (`coreaudio-sys-utils/src/dispatch.rs`)

A `Queue` wraps a serial GCD dispatch queue whose context holds a single
`AtomicBool` cancellation flag.  `run_sync`/`run_async` submit a task that
checks the flag at execution time and is skipped when it is set;
`run_final` submits a task that always runs its work and then sets the
flag.  Because the queue is serial and executes tasks in submission
(FIFO) order, the whole history is modelled as a list of submissions
folded over the queue state. -/

/-- One submission to the serial queue.  The payload is identified by a
number; executing the task appends that number to the shared log. -/
inductive Submission
  | runSync (id : Nat)
  | runAsync (id : Nat)
  | runFinal (id : Nat)
deriving DecidableEq, Repr

/-- Whether a submission was made through `run_final`. -/
def Submission.isFinal : Submission → Bool
  | .runFinal _ => true
  | _ => false

/-- Queue state: the ordered log of executed task ids and the
`should_cancel` context flag (dispatch.rs lines 21, 29-31, 42-44, 55-60). -/
structure QueueState where
  executed : List Nat
  shouldCancel : Bool
deriving DecidableEq, Repr

/-- The freshly created queue: empty log, flag clear
(dispatch.rs line 21: `set_context(Box::new(AtomicBool::new(false)))`). -/
def QueueState.init : QueueState := ⟨[], false⟩

/-- Execution of one dequeued task on the serial worker.
`run_sync`/`run_async` tasks return immediately when the cancellation
flag is set (dispatch.rs lines 30-35, 43-48); a `run_final` task runs its
work unconditionally and then stores `true` into the flag
(dispatch.rs lines 56-61). -/
def QueueState.execute (s : QueueState) : Submission → QueueState
  | .runSync i => if s.shouldCancel then s else ⟨s.executed ++ [i], s.shouldCancel⟩
  | .runAsync i => if s.shouldCancel then s else ⟨s.executed ++ [i], s.shouldCancel⟩
  | .runFinal i => ⟨s.executed ++ [i], true⟩

/-- Running a whole submission history in FIFO order. -/
def QueueState.run (s : QueueState) : List Submission → QueueState
  | [] => s
  | x :: xs => (s.execute x).run xs

theorem QueueState.run_append (s : QueueState) (a b : List Submission) :
    s.run (a ++ b) = (s.run a).run b := by
  induction a generalizing s with
  | nil => rfl
  | cons x xs ih => simp [QueueState.run, ih]

theorem QueueState.run_cancelled_of_no_final (s : QueueState) (l : List Submission)
    (hs : s.shouldCancel = true) (hl : ∀ x ∈ l, x.isFinal = false) :
    s.run l = s := by
  induction l with
  | nil => rfl
  | cons x xs ih =>
    cases x with
    | runSync i =>
      simp [QueueState.run, QueueState.execute, hs]
      exact ih fun y hy => hl y (List.mem_cons_of_mem _ hy)
    | runAsync i =>
      simp [QueueState.run, QueueState.execute, hs]
      exact ih fun y hy => hl y (List.mem_cons_of_mem _ hy)
    | runFinal i =>
      have := hl (.runFinal i) (List.mem_cons_self _ _)
      simp [Submission.isFinal] at this

theorem QueueState.run_cancel_monotone (s : QueueState) (l : List Submission)
    (hs : s.shouldCancel = true) : (s.run l).shouldCancel = true := by
  induction l generalizing s with
  | nil => exact hs
  | cons x xs ih =>
    cases x with
    | runSync i => simp [QueueState.run, QueueState.execute, hs]; exact ih _ hs
    | runAsync i => simp [QueueState.run, QueueState.execute, hs]; exact ih _ hs
    | runFinal i => exact ih _ rfl

/-- C2: for every submission history containing a `run_final f`, with every
later submission made through `run_sync` or `run_async`: the final task
itself executes (exactly once, as the last log entry), no task submitted
after it ever executes its work, and the cancellation flag, once set, is
never unset (monotone under any further submissions). -/
theorem run_final_cancels_subsequent_tasks :
    (∀ (pre post : List Submission) (f : Nat),
      (∀ x ∈ post, x.isFinal = false) →
      QueueState.run QueueState.init (pre ++ Submission.runFinal f :: post)
        = ⟨(QueueState.run QueueState.init pre).executed ++ [f], true⟩) ∧
    (∀ (s : QueueState) (l : List Submission),
      s.shouldCancel = true → (s.run l).shouldCancel = true) := by
  constructor
  · intro pre post f hpost
    rw [QueueState.run_append]
    show ((QueueState.run QueueState.init pre).execute (Submission.runFinal f)).run post = _
    have hexec : (QueueState.run QueueState.init pre).execute (Submission.runFinal f)
        = ⟨(QueueState.run QueueState.init pre).executed ++ [f], true⟩ := rfl
    rw [hexec]
    exact QueueState.run_cancelled_of_no_final _ post rfl hpost
  · exact QueueState.run_cancel_monotone

/-- Witness for C2: the spec's example history sync(1), async(2), final(3),
async(4), sync(5) executes exactly [1, 2, 3] and leaves the queue
cancelled. -/
theorem run_final_cancels_subsequent_tasks_witness :
    QueueState.run QueueState.init
      [Submission.runSync 1, Submission.runAsync 2, Submission.runFinal 3,
       Submission.runAsync 4, Submission.runSync 5] = ⟨[1, 2, 3], true⟩ := by
  have h := run_final_cancels_subsequent_tasks.1
    [Submission.runSync 1, Submission.runAsync 2]
    [Submission.runAsync 4, Submission.runSync 5] 3 (by decide)
  simpa using h

/-! ## Latency negotiation (`src/backend/mod.rs`)

`audiounit_setup_stream` (lines 2002-2017) negotiates the stream's
latency: when more than one stream is active in the context the stream
adopts the context's `global_latency_frames` unchanged; when this is the
only active stream the requested latency is clamped by
`audiounit_clamp_latency` and published through
`audiounit_set_global_latency` (lines 238-243). -/

/-- mod.rs line 87. -/
def SAFE_MIN_LATENCY_FRAMES : Nat := 256

/-- mod.rs line 88. -/
def SAFE_MAX_LATENCY_FRAMES : Nat := 512

/-- The cross-stream context fields involved in latency negotiation
(mod.rs lines 2848-2849): the active-stream count and the published
global latency. -/
structure ContextLatency where
  active_streams : Nat
  global_latency_frames : Nat
deriving DecidableEq, Repr

/-- `audiounit_clamp_latency`, single-active-stream branch
(mod.rs lines 1535-1540): clamp the request into the safe range.
`audiounit_setup_stream` only calls `audiounit_clamp_latency` when
`active_streams == 1`, which takes this branch; the other branch of the
source function is unreachable from stream setup. -/
def audiounit_clamp_latency (latency_frames : Nat) : Nat :=
  max (min latency_frames SAFE_MAX_LATENCY_FRAMES) SAFE_MIN_LATENCY_FRAMES

/-- The latency-negotiation step of `audiounit_setup_stream`
(mod.rs lines 2002-2017), returning the updated context and the stream's
negotiated `latency_frames`. -/
def audiounit_setup_stream_latency (ctx : ContextLatency) (requested : Nat) :
    ContextLatency × Nat :=
  if ctx.active_streams > 1 then
    (ctx, ctx.global_latency_frames)
  else
    let clamped := audiounit_clamp_latency requested
    (⟨ctx.active_streams, clamped⟩, clamped)

/-- C1: a stream set up as the only active stream negotiates the clamp of
its request into [256, 512] and publishes it as the context's global
latency; a stream set up while other streams are active adopts the
published global latency and leaves the context unchanged. -/
theorem setup_stream_latency_negotiation (ctx : ContextLatency) (requested : Nat) :
    (ctx.active_streams = 1 →
      (audiounit_setup_stream_latency ctx requested).2
          = max (min requested SAFE_MAX_LATENCY_FRAMES) SAFE_MIN_LATENCY_FRAMES ∧
      SAFE_MIN_LATENCY_FRAMES ≤ (audiounit_setup_stream_latency ctx requested).2 ∧
      (audiounit_setup_stream_latency ctx requested).2 ≤ SAFE_MAX_LATENCY_FRAMES ∧
      (audiounit_setup_stream_latency ctx requested).1.global_latency_frames
          = (audiounit_setup_stream_latency ctx requested).2) ∧
    (ctx.active_streams > 1 →
      (audiounit_setup_stream_latency ctx requested).2 = ctx.global_latency_frames ∧
      (audiounit_setup_stream_latency ctx requested).1 = ctx) := by
  constructor
  · intro h1
    have hnot : ¬ ctx.active_streams > 1 := by omega
    simp only [audiounit_setup_stream_latency, hnot, if_false, audiounit_clamp_latency,
      SAFE_MIN_LATENCY_FRAMES, SAFE_MAX_LATENCY_FRAMES]
    exact ⟨trivial, le_max_right _ _,
      max_le (min_le_right _ _) (by norm_num), trivial⟩
  · intro hgt
    simp [audiounit_setup_stream_latency, hgt]

/-- Witness for C1: the only active stream requesting 4096 frames gets 512
published globally; a second active stream then adopts 512 unchanged. -/
theorem setup_stream_latency_negotiation_witness :
    ((1 : Nat) = 1 →
      (audiounit_setup_stream_latency ⟨1, 0⟩ 4096).2
          = max (min 4096 SAFE_MAX_LATENCY_FRAMES) SAFE_MIN_LATENCY_FRAMES ∧
      SAFE_MIN_LATENCY_FRAMES ≤ (audiounit_setup_stream_latency ⟨1, 0⟩ 4096).2 ∧
      (audiounit_setup_stream_latency ⟨1, 0⟩ 4096).2 ≤ SAFE_MAX_LATENCY_FRAMES ∧
      (audiounit_setup_stream_latency ⟨1, 0⟩ 4096).1.global_latency_frames
          = (audiounit_setup_stream_latency ⟨1, 0⟩ 4096).2) ∧
    ((2 : Nat) > 1 →
      (audiounit_setup_stream_latency ⟨2, 512⟩ 128).2 = (⟨2, 512⟩ : ContextLatency).global_latency_frames ∧
      (audiounit_setup_stream_latency ⟨2, 512⟩ 128).1 = ⟨2, 512⟩) :=
  ⟨(setup_stream_latency_negotiation ⟨1, 0⟩ 4096).1,
   (setup_stream_latency_negotiation ⟨2, 512⟩ 128).2⟩

/-! ## Asynchronous stream reinitialization (`audiounit_reinit_stream_async`)

mod.rs lines 439-466: a reinit request first swaps the `reinit_pending`
atomic; a request that finds the flag already set only logs and returns,
otherwise it dispatches one task onto the context's serial queue.  The
task, when it runs, aborts if `destroy_pending` is set and otherwise
performs the reinit and clears the `switching_device` and
`reinit_pending` flags. -/

/-- The stream state observed by the reinit path, together with counters
for the externally observable effects the claim speaks about. -/
structure ReinitState where
  reinit_pending : Bool
  switching_device : Bool
  destroy_pending : Bool
  scheduled_tasks : Nat
  reinits_executed : Nat
  dropped_logged : Nat
deriving DecidableEq, Repr

/-- `audiounit_reinit_stream_async` (mod.rs lines 439-466): dedup on
`reinit_pending.swap(true)`, then dispatch one task to the serial queue. -/
def audiounit_reinit_stream_async (s : ReinitState) : ReinitState :=
  if s.reinit_pending then
    { s with dropped_logged := s.dropped_logged + 1 }
  else
    { s with reinit_pending := true, scheduled_tasks := s.scheduled_tasks + 1 }

/-- The body of the dispatched reinit task (mod.rs lines 455-464): abort
when destroy is pending, otherwise reinit and clear both flags. -/
def reinit_task_run (s : ReinitState) : ReinitState :=
  if s.destroy_pending then s
  else
    { s with reinits_executed := s.reinits_executed + 1,
             switching_device := false,
             reinit_pending := false }

/-- C4: two reinit requests issued before the scheduled task runs result
in exactly one scheduled task; the second request is dropped with a log
entry and schedules nothing; the task, once executed (with no destroy
pending), performs exactly one reinit and clears both the
switching-device and reinit-pending flags. -/
theorem reinit_request_deduplication (s : ReinitState)
    (hpend : s.reinit_pending = false) (hdestroy : s.destroy_pending = false) :
    (audiounit_reinit_stream_async s).scheduled_tasks = s.scheduled_tasks + 1 ∧
    (audiounit_reinit_stream_async s).reinit_pending = true ∧
    (audiounit_reinit_stream_async (audiounit_reinit_stream_async s)).scheduled_tasks
        = s.scheduled_tasks + 1 ∧
    (audiounit_reinit_stream_async (audiounit_reinit_stream_async s)).dropped_logged
        = s.dropped_logged + 1 ∧
    (reinit_task_run (audiounit_reinit_stream_async (audiounit_reinit_stream_async s))).reinits_executed
        = s.reinits_executed + 1 ∧
    (reinit_task_run (audiounit_reinit_stream_async (audiounit_reinit_stream_async s))).switching_device
        = false ∧
    (reinit_task_run (audiounit_reinit_stream_async (audiounit_reinit_stream_async s))).reinit_pending
        = false := by
  simp [audiounit_reinit_stream_async, reinit_task_run, hpend, hdestroy]

/-- Witness for C4 at a concrete stream state. -/
theorem reinit_request_deduplication_witness :
    (audiounit_reinit_stream_async ⟨false, true, false, 0, 0, 0⟩).scheduled_tasks = 0 + 1 ∧
    (audiounit_reinit_stream_async ⟨false, true, false, 0, 0, 0⟩).reinit_pending = true ∧
    (audiounit_reinit_stream_async (audiounit_reinit_stream_async ⟨false, true, false, 0, 0, 0⟩)).scheduled_tasks
        = 0 + 1 ∧
    (audiounit_reinit_stream_async (audiounit_reinit_stream_async ⟨false, true, false, 0, 0, 0⟩)).dropped_logged
        = 0 + 1 ∧
    (reinit_task_run (audiounit_reinit_stream_async (audiounit_reinit_stream_async ⟨false, true, false, 0, 0, 0⟩))).reinits_executed
        = 0 + 1 ∧
    (reinit_task_run (audiounit_reinit_stream_async (audiounit_reinit_stream_async ⟨false, true, false, 0, 0, 0⟩))).switching_device
        = false ∧
    (reinit_task_run (audiounit_reinit_stream_async (audiounit_reinit_stream_async ⟨false, true, false, 0, 0, 0⟩))).reinit_pending
        = false :=
  reinit_request_deduplication ⟨false, true, false, 0, 0, 0⟩ rfl rfl

/-! ## HAL property notifications (`audiounit_property_listener_callback`)

mod.rs lines 483-560: the callback drops (with a log) any notification
arriving while `switching_device` is set; otherwise it sets the flag and
scans the delivered property addresses.  A device-is-alive event for a
stream whose input device is the system default resets the flag and
returns without requesting a reinit; an unexpected selector does the
same.  If the scan completes, the device-changed callback is invoked per
address and one asynchronous reinit is requested. -/

/-- The property selectors distinguished by the callback
(mod.rs lines 497-523). -/
inductive PropertySelector
  | defaultOutputDevice
  | defaultInputDevice
  | deviceIsAlive
  | dataSource
  | unknownSelector
deriving DecidableEq, Repr

/-- Stream state read and written by the listener callback. -/
structure ListenerStreamState where
  switching_device : Bool
  input_is_system_default : Bool
  device_changed_calls : Nat
deriving DecidableEq, Repr

/-- Result of one callback invocation: the stream state, whether a reinit
was requested, and whether the notification was dropped with a log. -/
structure ListenerCallbackResult where
  stream : ListenerStreamState
  reinit_requested : Bool
  dropped_logged : Bool
deriving DecidableEq, Repr

/-- Outcome of scanning the delivered addresses: either an early return
(mod.rs lines 508-512 and 518-522) or fall-through to the reinit path. -/
inductive ScanOutcome
  | earlyReturn (s : ListenerStreamState)
  | proceed (s : ListenerStreamState)
deriving DecidableEq, Repr

/-- The first loop of the callback (mod.rs lines 496-524): a
device-is-alive event for the system-default input device resets
`switching_device` and returns; an unexpected selector does the same;
all other selectors are only logged. -/
def scan_property_events (s : ListenerStreamState) :
    List PropertySelector → ScanOutcome
  | [] => .proceed s
  | sel :: rest =>
    match sel with
    | .deviceIsAlive =>
      if s.input_is_system_default then
        .earlyReturn { s with switching_device := false }
      else
        scan_property_events s rest
    | .unknownSelector => .earlyReturn { s with switching_device := false }
    | _ => scan_property_events s rest

/-- `audiounit_property_listener_callback` (mod.rs lines 483-560). -/
def audiounit_property_listener_callback (s : ListenerStreamState)
    (addrs : List PropertySelector) : ListenerCallbackResult :=
  if s.switching_device then
    ⟨s, false, true⟩
  else
    match scan_property_events { s with switching_device := true } addrs with
    | .earlyReturn s2 => ⟨s2, false, false⟩
    | .proceed s2 =>
      ⟨{ s2 with device_changed_calls := s2.device_changed_calls + addrs.length },
       true, false⟩

theorem scan_property_events_isAlive_default (s : ListenerStreamState)
    (hdef : s.input_is_system_default = true) :
    ∀ addrs : List PropertySelector, PropertySelector.deviceIsAlive ∈ addrs →
      scan_property_events s addrs = .earlyReturn { s with switching_device := false } := by
  intro addrs hmem
  induction addrs with
  | nil => cases hmem
  | cons a rest ih =>
    cases a with
    | deviceIsAlive => simp [scan_property_events, hdef]
    | unknownSelector => simp [scan_property_events]
    | defaultOutputDevice =>
      have : PropertySelector.deviceIsAlive ∈ rest := by
        simpa using hmem
      simp [scan_property_events, ih this]
    | defaultInputDevice =>
      have : PropertySelector.deviceIsAlive ∈ rest := by
        simpa using hmem
      simp [scan_property_events, ih this]
    | dataSource =>
      have : PropertySelector.deviceIsAlive ∈ rest := by
        simpa using hmem
      simp [scan_property_events, ih this]

/-- C5: a notification delivered while `switching_device` is set is
logged and dropped with no state change and no reinit request; and a
notification carrying a device-is-alive event for a stream whose input
device is the system default resets the switching flag and requests no
reinit (and invokes no device-changed callback). -/
theorem property_listener_reentrancy_guard (s : ListenerStreamState)
    (addrs : List PropertySelector) :
    (s.switching_device = true →
      audiounit_property_listener_callback s addrs = ⟨s, false, true⟩) ∧
    (s.switching_device = false → s.input_is_system_default = true →
      PropertySelector.deviceIsAlive ∈ addrs →
      audiounit_property_listener_callback s addrs = ⟨s, false, false⟩) := by
  constructor
  · intro hsw
    simp [audiounit_property_listener_callback, hsw]
  · intro hsw hdef hmem
    have hscan := scan_property_events_isAlive_default
      { s with switching_device := true } hdef addrs hmem
    simp only [audiounit_property_listener_callback, hsw, Bool.false_eq_true,
      if_false, hscan]
    cases s
    simp_all

/-- Witness for C5: a dropped notification while switching, and a no-op
is-alive event for the default input device. -/
theorem property_listener_reentrancy_guard_witness :
    ((true : Bool) = true →
      audiounit_property_listener_callback ⟨true, false, 0⟩ [PropertySelector.dataSource]
        = ⟨⟨true, false, 0⟩, false, true⟩) ∧
    ((false : Bool) = false → (true : Bool) = true →
      PropertySelector.deviceIsAlive ∈ [PropertySelector.deviceIsAlive] →
      audiounit_property_listener_callback ⟨false, true, 0⟩ [PropertySelector.deviceIsAlive]
        = ⟨⟨false, true, 0⟩, false, false⟩) :=
  ⟨(property_listener_reentrancy_guard ⟨true, false, 0⟩ [PropertySelector.dataSource]).1,
   fun _ _ => (property_listener_reentrancy_guard ⟨false, true, 0⟩
      [PropertySelector.deviceIsAlive]).2 rfl rfl⟩

/-! ## Stream description initialization (`audio_stream_desc_init`)

mod.rs lines 784-829: derive a packed linear-PCM
`AudioStreamBasicDescription` from the caller's requested format; only
the four formats S16LE, S16BE, Float32LE, Float32BE are accepted, any
other format yields an invalid-format error. -/

/-- The caller-visible sample formats.  The four named ones are the arms
matched at mod.rs lines 794-811; `otherFormat` stands for any other
value of the external `SampleFormat` enum, which falls into the
wildcard arm at line 812. -/
inductive SampleFormat
  | s16le
  | s16be
  | float32le
  | float32be
  | otherFormat
deriving DecidableEq, Repr

/-- The error taxonomy surfaced to the frontend. -/
inductive CubebError
  | genericError
  | invalidFormat
  | notSupported
deriving DecidableEq, Repr

/-- CoreAudio format-flag bit `kAudioFormatFlagIsFloat`. -/
def kAudioFormatFlagIsFloat : Nat := 1

/-- CoreAudio format-flag bit `kAudioFormatFlagIsBigEndian`. -/
def kAudioFormatFlagIsBigEndian : Nat := 2

/-- CoreAudio format-flag bit `kAudioFormatFlagIsSignedInteger`. -/
def kAudioFormatFlagIsSignedInteger : Nat := 4

/-- CoreAudio format-flag bit `kLinearPCMFormatFlagIsPacked`. -/
def kLinearPCMFormatFlagIsPacked : Nat := 8

/-- CoreAudio format id `kAudioFormatLinearPCM` ("lpcm"). -/
def kAudioFormatLinearPCM : Nat := 0x6C70636D

/-- The caller's stream parameters consumed by
`audio_stream_desc_init`. -/
structure StreamParams where
  rate : Nat
  channels : Nat
  format : SampleFormat
deriving DecidableEq, Repr

/-- The fields of `AudioStreamBasicDescription` written by
`audio_stream_desc_init` (the sample rate is an exact float of the
integer rate and is modelled as that integer). -/
structure AudioStreamBasicDescription where
  mBitsPerChannel : Nat
  mFormatFlags : Nat
  mFormatID : Nat
  mSampleRate : Nat
  mChannelsPerFrame : Nat
  mBytesPerFrame : Nat
  mFramesPerPacket : Nat
  mBytesPerPacket : Nat
  mReserved : Nat
deriving DecidableEq, Repr

/-- The common tail of `audio_stream_desc_init` (mod.rs lines 817-826):
packed linear PCM, rate and channel count copied from the parameters,
one frame per packet. -/
def audio_stream_desc_build (stream_params : StreamParams)
    (bits flags : Nat) : AudioStreamBasicDescription :=
  let bytesPerFrame := (bits / 8) * stream_params.channels
  { mBitsPerChannel := bits
    mFormatFlags := flags ||| kLinearPCMFormatFlagIsPacked
    mFormatID := kAudioFormatLinearPCM
    mSampleRate := stream_params.rate
    mChannelsPerFrame := stream_params.channels
    mBytesPerFrame := bytesPerFrame
    mFramesPerPacket := 1
    mBytesPerPacket := bytesPerFrame * 1
    mReserved := 0 }

/-- `audio_stream_desc_init` (mod.rs lines 784-829). -/
def audio_stream_desc_init (stream_params : StreamParams) :
    Except CubebError AudioStreamBasicDescription :=
  match stream_params.format with
  | .s16le =>
    .ok (audio_stream_desc_build stream_params 16 kAudioFormatFlagIsSignedInteger)
  | .s16be =>
    .ok (audio_stream_desc_build stream_params 16
      (kAudioFormatFlagIsSignedInteger ||| kAudioFormatFlagIsBigEndian))
  | .float32le =>
    .ok (audio_stream_desc_build stream_params 32 kAudioFormatFlagIsFloat)
  | .float32be =>
    .ok (audio_stream_desc_build stream_params 32
      (kAudioFormatFlagIsFloat ||| kAudioFormatFlagIsBigEndian))
  | .otherFormat => .error CubebError.invalidFormat

/-- C9: stream-description initialization succeeds exactly for the four
supported formats, fails with invalid-format otherwise, and for the
supported formats produces a packed linear-PCM descriptor whose bits per
channel and signed-integer / float / big-endian flags match the
requested format. -/
theorem audio_stream_desc_init_formats (p : StreamParams) :
    ((∃ d, audio_stream_desc_init p = .ok d) ↔ p.format ≠ SampleFormat.otherFormat) ∧
    (p.format = SampleFormat.otherFormat →
      audio_stream_desc_init p = .error CubebError.invalidFormat) ∧
    (∀ d, audio_stream_desc_init p = .ok d →
      d.mFormatID = kAudioFormatLinearPCM ∧
      d.mFormatFlags &&& kLinearPCMFormatFlagIsPacked ≠ 0 ∧
      d.mBitsPerChannel
        = (if p.format = SampleFormat.s16le ∨ p.format = SampleFormat.s16be then 16 else 32) ∧
      (d.mFormatFlags &&& kAudioFormatFlagIsSignedInteger ≠ 0
        ↔ (p.format = SampleFormat.s16le ∨ p.format = SampleFormat.s16be)) ∧
      (d.mFormatFlags &&& kAudioFormatFlagIsFloat ≠ 0
        ↔ (p.format = SampleFormat.float32le ∨ p.format = SampleFormat.float32be)) ∧
      (d.mFormatFlags &&& kAudioFormatFlagIsBigEndian ≠ 0
        ↔ (p.format = SampleFormat.s16be ∨ p.format = SampleFormat.float32be))) := by
  obtain ⟨rate, channels, fmt⟩ := p
  cases fmt with
  | s16le =>
    refine ⟨by simp [audio_stream_desc_init], by simp, fun d hd => ?_⟩
    simp only [audio_stream_desc_init, Except.ok.injEq] at hd
    subst hd
    simp [audio_stream_desc_build, kAudioFormatFlagIsFloat, kAudioFormatFlagIsBigEndian,
      kAudioFormatFlagIsSignedInteger, kLinearPCMFormatFlagIsPacked, kAudioFormatLinearPCM]
    all_goals decide
  | s16be =>
    refine ⟨by simp [audio_stream_desc_init], by simp, fun d hd => ?_⟩
    simp only [audio_stream_desc_init, Except.ok.injEq] at hd
    subst hd
    simp [audio_stream_desc_build, kAudioFormatFlagIsFloat, kAudioFormatFlagIsBigEndian,
      kAudioFormatFlagIsSignedInteger, kLinearPCMFormatFlagIsPacked, kAudioFormatLinearPCM]
  | float32le =>
    refine ⟨by simp [audio_stream_desc_init], by simp, fun d hd => ?_⟩
    simp only [audio_stream_desc_init, Except.ok.injEq] at hd
    subst hd
    simp [audio_stream_desc_build, kAudioFormatFlagIsFloat, kAudioFormatFlagIsBigEndian,
      kAudioFormatFlagIsSignedInteger, kLinearPCMFormatFlagIsPacked, kAudioFormatLinearPCM]
    all_goals decide
  | float32be =>
    refine ⟨by simp [audio_stream_desc_init], by simp, fun d hd => ?_⟩
    simp only [audio_stream_desc_init, Except.ok.injEq] at hd
    subst hd
    simp [audio_stream_desc_build, kAudioFormatFlagIsFloat, kAudioFormatFlagIsBigEndian,
      kAudioFormatFlagIsSignedInteger, kLinearPCMFormatFlagIsPacked, kAudioFormatLinearPCM]
    all_goals decide
  | otherFormat =>
    refine ⟨by simp [audio_stream_desc_init], fun _ => rfl, fun d hd => ?_⟩
    simp [audio_stream_desc_init] at hd

/-- Witness for C9: an unsupported format errors with invalid-format, and
the S16BE descriptor carries the big-endian flag. -/
theorem audio_stream_desc_init_formats_witness :
    audio_stream_desc_init ⟨44100, 2, SampleFormat.otherFormat⟩
        = .error CubebError.invalidFormat ∧
    (audio_stream_desc_build ⟨44100, 2, SampleFormat.s16be⟩ 16
        (kAudioFormatFlagIsSignedInteger ||| kAudioFormatFlagIsBigEndian)).mFormatFlags
      &&& kAudioFormatFlagIsBigEndian ≠ 0 :=
  ⟨(audio_stream_desc_init_formats ⟨44100, 2, SampleFormat.otherFormat⟩).2.1 rfl,
   (((audio_stream_desc_init_formats ⟨44100, 2, SampleFormat.s16be⟩).2.2 _ rfl).2.2.2.2.2).mpr
     (Or.inl rfl)⟩

/-! ## Stream position (`AudioUnitStream::position`)

mod.rs lines 3397-3404: the reported position is 0 whenever the current
presentation latency exceeds the frames-played counter, and frames
played minus latency otherwise; the query always returns `Ok`. -/

/-- `AudioUnitStream::position` (mod.rs lines 3397-3404), as a function
of the `current_latency_frames` (u32) and `frames_played` (u64)
atomics. -/
def stream_position (current_latency_frames frames_played : Nat) :
    Except CubebError Nat :=
  .ok (if current_latency_frames > frames_played then 0
       else frames_played - current_latency_frames)

/-- C10: the position query never fails and never underflows: it reports
0 when the current latency exceeds the frames played, and otherwise the
exact difference (the reported value plus the latency reconstructs the
frames-played counter). -/
theorem stream_position_no_underflow (current_latency_frames frames_played : Nat) :
    (current_latency_frames > frames_played →
      stream_position current_latency_frames frames_played = .ok 0) ∧
    (current_latency_frames ≤ frames_played →
      ∃ v, stream_position current_latency_frames frames_played = .ok v ∧
        v + current_latency_frames = frames_played) := by
  constructor
  · intro h
    simp [stream_position, h]
  · intro h
    refine ⟨frames_played - current_latency_frames, ?_, by omega⟩
    have : ¬ current_latency_frames > frames_played := by omega
    simp [stream_position, this]

/-- Witness for C10 at concrete counter values. -/
theorem stream_position_no_underflow_witness :
    ((1000 : Nat) > 64 → stream_position 1000 64 = .ok 0) ∧
    ((300 : Nat) ≤ 1000 →
      ∃ v, stream_position 300 1000 = .ok v ∧ v + 300 = 1000) :=
  ⟨(stream_position_no_underflow 1000 64).1,
   (stream_position_no_underflow 300 1000).2⟩

/-! ## Buffer-size-change protocol (`audiounit_set_buffer_size`)

mod.rs lines 1657-1750: read the current buffer size; if it already
equals the target, return success immediately.  Otherwise install
`buffer_size_changed_callback` as a property listener, clear the
acknowledgement flag, request the new size, poll the flag for at most 30
retries, remove the listener regardless of how the wait ended, and fail
exactly when the acknowledgement never arrived within the budget.  The
callback (lines 1612-1655) runs on a HAL thread and sets the flag; it is
modelled by the poll index from which the flag reads true. -/

/-- Oracle for the HAL calls made by `audiounit_set_buffer_size`.
`ack_poll = some k` means the asynchronous
`buffer_size_changed_callback` has set `buffer_size_change_state` by the
time the wait loop inspects it with `count = k`; `none` means the
callback never ran. -/
structure BufferSizeHal where
  current_buffer_frames : Option Nat
  add_listener_ok : Bool
  set_property_ok : Bool
  remove_listener_ok : Bool
  ack_poll : Option Nat
deriving DecidableEq, Repr

/-- The value the wait loop reads from `buffer_size_change_state` when
its counter equals `count`. -/
def buffer_size_change_state (h : BufferSizeHal) (count : Nat) : Bool :=
  match h.ack_poll with
  | none => false
  | some k => decide (k ≤ count)

/-- The wait loop of `audiounit_set_buffer_size` (mod.rs lines
1727-1732): `while !state && count < 30 { count += 1 }`, returning the
flag value it last observed together with the final counter.  The fuel
argument dominates the loop's 31 possible iterations. -/
def buffer_size_wait (h : BufferSizeHal) : Nat → Nat → Bool × Nat
  | 0, count => (buffer_size_change_state h count, count)
  | fuel + 1, count =>
    if buffer_size_change_state h count = false ∧ count < 30 then
      buffer_size_wait h fuel (count + 1)
    else
      (buffer_size_change_state h count, count)

/-- The HAL calls performed during one `audiounit_set_buffer_size`
invocation. -/
structure BufferSizeTrace where
  get_calls : Nat
  add_listener_calls : Nat
  set_calls : Nat
  remove_listener_calls : Nat
deriving DecidableEq, Repr

/-- `audiounit_set_buffer_size` (mod.rs lines 1657-1750): result
(`true` = `Ok`) paired with the trace of HAL calls. -/
def audiounit_set_buffer_size (h : BufferSizeHal) (new_size_frames : Nat) :
    Bool × BufferSizeTrace :=
  match h.current_buffer_frames with
  | none => (false, ⟨1, 0, 0, 0⟩)
  | some buffer_frames =>
    if new_size_frames = buffer_frames then
      (true, ⟨1, 0, 0, 0⟩)
    else if h.add_listener_ok = false then
      (false, ⟨1, 1, 0, 0⟩)
    else if h.set_property_ok = false then
      (false, ⟨1, 1, 1, 1⟩)
    else
      let wait := buffer_size_wait h 31 0
      if h.remove_listener_ok = false then
        (false, ⟨1, 1, 1, 1⟩)
      else if wait.1 = false ∧ 30 ≤ wait.2 then
        (false, ⟨1, 1, 1, 1⟩)
      else
        (true, ⟨1, 1, 1, 1⟩)

theorem buffer_size_wait_spec (h : BufferSizeHal) :
    ∀ fuel count, fuel + count = 31 → count ≤ 30 →
      ((buffer_size_wait h fuel count).1 = true
          ↔ ∃ k, h.ack_poll = some k ∧ k ≤ 30) ∧
      (buffer_size_wait h fuel count).2 ≤ 30 ∧
      ((buffer_size_wait h fuel count).1 = false →
        30 ≤ (buffer_size_wait h fuel count).2) := by
  intro fuel
  induction fuel with
  | zero => intro count hsum hle; omega
  | succ n ih =>
    intro count hsum hle
    by_cases hcond : buffer_size_change_state h count = false ∧ count < 30
    · rw [show buffer_size_wait h (n + 1) count
          = buffer_size_wait h n (count + 1) by simp [buffer_size_wait, hcond]]
      exact ih (count + 1) (by omega) (by omega)
    · rw [show buffer_size_wait h (n + 1) count
          = (buffer_size_change_state h count, count) by simp [buffer_size_wait, hcond]]
      refine ⟨?_, hle, ?_⟩
      · constructor
        · intro hstate
          cases hk : h.ack_poll with
          | none => simp [buffer_size_change_state, hk] at hstate
          | some k =>
            refine ⟨k, rfl, ?_⟩
            simp [buffer_size_change_state, hk] at hstate
            omega
        · intro ⟨k, hk, hk30⟩
          simp only [buffer_size_change_state, hk, decide_eq_true_eq]
          by_contra hgt
          have hkc : ¬ k ≤ count := hgt
          have hstate_false : buffer_size_change_state h count = false := by
            simp [buffer_size_change_state, hk, hkc]
          have hge : 30 ≤ count := by
            by_contra h30
            exact hcond ⟨hstate_false, by omega⟩
          omega
      · intro hstate
        by_contra h30
        exact hcond ⟨hstate, by omega⟩

/-- C6: when the current buffer size already equals the target the call
succeeds with no further HAL calls; otherwise (with the listener
successfully installed and the resize request accepted) the listener is
removed regardless of whether the acknowledgement arrived, the wait is
bounded by the 30-retry budget, and — when the removal also succeeds —
the call fails exactly when the acknowledgement never arrived within
the budget. -/
theorem set_buffer_size_protocol (h : BufferSizeHal) (new_size_frames : Nat) :
    (∀ cur, h.current_buffer_frames = some cur → new_size_frames = cur →
      audiounit_set_buffer_size h new_size_frames = (true, ⟨1, 0, 0, 0⟩)) ∧
    (∀ cur, h.current_buffer_frames = some cur → new_size_frames ≠ cur →
      h.add_listener_ok = true →
      (audiounit_set_buffer_size h new_size_frames).2.remove_listener_calls = 1) ∧
    (buffer_size_wait h 31 0).2 ≤ 30 ∧
    (∀ cur, h.current_buffer_frames = some cur → new_size_frames ≠ cur →
      h.add_listener_ok = true → h.set_property_ok = true →
      h.remove_listener_ok = true →
      ((audiounit_set_buffer_size h new_size_frames).1 = false
        ↔ ¬ ∃ k, h.ack_poll = some k ∧ k ≤ 30)) := by
  have hw := buffer_size_wait_spec h 31 0 rfl (by omega)
  refine ⟨?_, ?_, hw.2.1, ?_⟩
  · intro cur hcur heq
    simp [audiounit_set_buffer_size, hcur, heq]
  · intro cur hcur hne hadd
    by_cases hset : h.set_property_ok = false
    · simp [audiounit_set_buffer_size, hcur, hne, hadd, hset]
    · by_cases hrem : h.remove_listener_ok = false
      · simp [audiounit_set_buffer_size, hcur, hne, hadd, hset, hrem]
      · by_cases hack : (buffer_size_wait h 31 0).1 = false ∧ 30 ≤ (buffer_size_wait h 31 0).2
        · simp [audiounit_set_buffer_size, hcur, hne, hadd, hset, hrem, hack]
        · simp [audiounit_set_buffer_size, hcur, hne, hadd, hset, hrem, hack]
  · intro cur hcur hne hadd hset hrem
    simp only [audiounit_set_buffer_size, hcur, hne, hadd, hset, hrem]
    by_cases hack : ∃ k, h.ack_poll = some k ∧ k ≤ 30
    · have h1 : (buffer_size_wait h 31 0).1 = true := hw.1.mpr hack
      simp [hne, h1, hack]
    · have h1 : (buffer_size_wait h 31 0).1 = false := by
        cases hb : (buffer_size_wait h 31 0).1 with
        | false => rfl
        | true => exact absurd (hw.1.mp hb) hack
      have h2 : 30 ≤ (buffer_size_wait h 31 0).2 := hw.2.2 h1
      simp [hne, h1, h2, hack]

/-- Witness for C6: a matching current size succeeds with only the read;
with differing sizes and an acknowledgement at poll 3 the call succeeds
and removes the listener; with no acknowledgement it fails. -/
theorem set_buffer_size_protocol_witness :
    audiounit_set_buffer_size ⟨some 512, true, true, true, some 3⟩ 512 = (true, ⟨1, 0, 0, 0⟩) ∧
    (audiounit_set_buffer_size ⟨some 128, true, true, true, some 3⟩ 512).2.remove_listener_calls = 1 ∧
    ((audiounit_set_buffer_size ⟨some 128, true, true, true, some 3⟩ 512).1 = false
      ↔ ¬ ∃ k, (BufferSizeHal.mk (some 128) true true true (some 3)).ack_poll = some k ∧ k ≤ 30) ∧
    ((audiounit_set_buffer_size ⟨some 128, true, true, true, none⟩ 512).1 = false
      ↔ ¬ ∃ k, (BufferSizeHal.mk (some 128) true true true (none : Option Nat)).ack_poll = some k ∧ k ≤ 30) :=
  ⟨(set_buffer_size_protocol ⟨some 512, true, true, true, some 3⟩ 512).1 512 rfl rfl,
   (set_buffer_size_protocol ⟨some 128, true, true, true, some 3⟩ 512).2.1 128 rfl
     (by decide) rfl,
   (set_buffer_size_protocol ⟨some 128, true, true, true, some 3⟩ 512).2.2.2 128 rfl
     (by decide) rfl rfl rfl,
   (set_buffer_size_protocol ⟨some 128, true, true, true, none⟩ 512).2.2.2 128 rfl
     (by decide) rfl rfl rfl⟩

/-! ## Aggregate device build (`audiounit_create_aggregate_device`)

mod.rs lines 1291-1322: blank creation, sub-device list, master
assignment and drift-compensation activation run in order; a failure of
the last three destroys the partially-built device (destroy result
ignored) and surfaces the error.  Inside
`audiounit_activate_clock_drift_compensation` (lines 1128-1194) the two
owned-objects queries propagate their failure, but a failing
drift-compensation write on a sub-device returns `Ok(())`
(line 1189), silently ending the loop.  The AirPods quirk
(lines 1198-1270) returns no result and cannot fail the build.  On any
build failure `audiounit_setup_stream` (lines 1970-1986) resets
`aggregate_device_id` to 0 and continues with the independent
per-direction devices. -/

/-- Oracle for the HAL calls of one aggregate-device build attempt. -/
structure AggHal where
  create_blank_ok : Bool
  set_sub_list_ok : Bool
  set_master_ok : Bool
  owned_size_ok : Bool
  owned_data_ok : Bool
  sub_devices : List Nat
  drift_set_ok : Nat → Bool
  destroy_ok : Bool

/-- The drift loop of `audiounit_activate_clock_drift_compensation`
(mod.rs lines 1181-1191): walk the sub-devices after the master; on a
failing write, return `Ok(())` (line 1189) — the failure is swallowed. -/
def drift_compensation_loop (ok : Nat → Bool) : List Nat → Bool
  | [] => true
  | d :: rest => if ok d then drift_compensation_loop ok rest else true

/-- `audiounit_activate_clock_drift_compensation`
(mod.rs lines 1128-1194); `true` = `Ok`. -/
def audiounit_activate_clock_drift_compensation (h : AggHal) : Bool :=
  if h.owned_size_ok = false then false
  else if h.owned_data_ok = false then false
  else drift_compensation_loop h.drift_set_ok h.sub_devices.tail

/-- Observable outcome of `audiounit_create_aggregate_device`: the
result (`true` = `Ok`), whether an engine-created aggregate device is
still registered with the HAL afterwards, and whether destruction of the
partially-built device was attempted. -/
structure AggOutcome where
  result : Bool
  aggregate_registered : Bool
  destroy_attempted : Bool
deriving DecidableEq, Repr

/-- `audiounit_create_aggregate_device` (mod.rs lines 1291-1322).  The
destroy call's own result is ignored by the source; the device stays
registered when that call fails. -/
def audiounit_create_aggregate_device (h : AggHal) : AggOutcome :=
  if h.create_blank_ok = false then ⟨false, false, false⟩
  else if h.set_sub_list_ok = false then ⟨false, !h.destroy_ok, true⟩
  else if h.set_master_ok = false then ⟨false, !h.destroy_ok, true⟩
  else if audiounit_activate_clock_drift_compensation h = false then
    ⟨false, !h.destroy_ok, true⟩
  else ⟨true, true, false⟩

/-- The device-selection fragment of `audiounit_setup_stream`
(mod.rs lines 1970-1986): on build success both directions are
redirected to the aggregate id; on failure `aggregate_device_id` is
reset to 0 and setup continues with the independent per-direction
device ids. -/
def audiounit_setup_stream_devices (h : AggHal) (in_id out_id agg_id : Nat) :
    Nat × Nat × Nat :=
  if (audiounit_create_aggregate_device h).result then (agg_id, agg_id, agg_id)
  else (in_id, out_id, 0)

/-- A build attempt in which every structural step succeeds but the
drift-compensation write on the (sole) non-master sub-device fails. -/
def aggDriftFailureInput : AggHal :=
  ⟨true, true, true, true, true, [1, 2], fun d => decide (d ≠ 2), true⟩

theorem drift_compensation_loop_never_fails (ok : Nat → Bool) (l : List Nat) :
    drift_compensation_loop ok l = true := by
  induction l with
  | nil => rfl
  | cons d rest ih => by_cases hd : ok d <;> simp [drift_compensation_loop, hd, ih]

/-- Counterexample to C3 as stated: with every structural step
succeeding but the drift-compensation write on non-master sub-device 2
failing, the build reports success, the aggregate device stays
registered with the HAL, and no destruction is attempted — the claimed
destroy-and-surface-the-error behavior does not happen. -/
theorem aggregate_drift_failure_not_rolled_back :
    aggDriftFailureInput.drift_set_ok 2 = false ∧
    aggDriftFailureInput.sub_devices.tail = [2] ∧
    audiounit_create_aggregate_device aggDriftFailureInput = ⟨true, true, false⟩ := by
  refine ⟨rfl, rfl, ?_⟩
  rfl

/-- C3 (amended): failures of the sub-device-list step, the
master-assignment step, or the owned-objects queries inside
drift-compensation activation destroy the partially-built aggregate
(destruction is attempted; the device is gone whenever the destroy call
succeeds) and surface an error, upon which the stream falls back to the
independent per-direction devices with the aggregate id reset to 0; a
failing drift-compensation write on an individual non-master sub-device
is swallowed, so the activation step — and with it the whole build —
cannot fail once the owned-objects queries succeed. -/
theorem aggregate_device_build_rollback (h : AggHal) (in_id out_id agg_id : Nat) :
    (h.create_blank_ok = true → h.set_sub_list_ok = false →
      audiounit_create_aggregate_device h
        = ⟨false, !h.destroy_ok, true⟩) ∧
    (h.create_blank_ok = true → h.set_sub_list_ok = true → h.set_master_ok = false →
      audiounit_create_aggregate_device h
        = ⟨false, !h.destroy_ok, true⟩) ∧
    (h.create_blank_ok = true → h.set_sub_list_ok = true → h.set_master_ok = true →
      (h.owned_size_ok = false ∨ h.owned_data_ok = false) →
      audiounit_create_aggregate_device h
        = ⟨false, !h.destroy_ok, true⟩) ∧
    (h.create_blank_ok = true → h.set_sub_list_ok = true → h.set_master_ok = true →
      h.owned_size_ok = true → h.owned_data_ok = true →
      (audiounit_create_aggregate_device h).result = true) ∧
    ((audiounit_create_aggregate_device h).result = false →
      (audiounit_create_aggregate_device h).aggregate_registered = true →
      h.destroy_ok = false) ∧
    ((audiounit_create_aggregate_device h).result = false →
      audiounit_setup_stream_devices h in_id out_id agg_id = (in_id, out_id, 0)) ∧
    ((audiounit_create_aggregate_device h).result = true →
      audiounit_setup_stream_devices h in_id out_id agg_id = (agg_id, agg_id, agg_id)) := by
  refine ⟨?_, ?_, ?_, ?_, ?_, ?_, ?_⟩
  · intro hc hs
    simp [audiounit_create_aggregate_device, hc, hs]
  · intro hc hs hm
    simp [audiounit_create_aggregate_device, hc, hs, hm]
  · intro hc hs hm hq
    have hact : audiounit_activate_clock_drift_compensation h = false := by
      cases hq with
    | inl h1 => simp [audiounit_activate_clock_drift_compensation, h1]
    | inr h2 =>
        by_cases h1 : h.owned_size_ok = false <;>
          simp [audiounit_activate_clock_drift_compensation, h1, h2]
    simp [audiounit_create_aggregate_device, hc, hs, hm, hact]
  · intro hc hs hm ho1 ho2
    have hact : audiounit_activate_clock_drift_compensation h = true := by
      simp [audiounit_activate_clock_drift_compensation, ho1, ho2,
        drift_compensation_loop_never_fails]
    simp [audiounit_create_aggregate_device, hc, hs, hm, hact]
  · intro hres hreg
    by_cases hd : h.destroy_ok
    · exfalso
      simp only [audiounit_create_aggregate_device] at hres hreg
      by_cases hc : h.create_blank_ok = false <;>
        by_cases hs : h.set_sub_list_ok = false <;>
          by_cases hm : h.set_master_ok = false <;>
            by_cases ha : audiounit_activate_clock_drift_compensation h = false <;>
              simp [hc, hs, hm, ha, hd] at hres hreg
    · simpa using hd
  · intro hres
    simp [audiounit_setup_stream_devices, hres]
  · intro hres
    simp [audiounit_setup_stream_devices, hres]

/-- Witness for the amended C3: a failing master assignment destroys the
device and the stream falls back to the independent devices. -/
theorem aggregate_device_build_rollback_witness :
    audiounit_create_aggregate_device ⟨true, true, false, true, true, [5, 6], fun _ => true, true⟩
        = ⟨false, !true, true⟩ ∧
    audiounit_setup_stream_devices ⟨true, true, false, true, true, [5, 6], fun _ => true, true⟩ 7 8 9
        = (7, 8, 0) :=
  ⟨(aggregate_device_build_rollback ⟨true, true, false, true, true, [5, 6], fun _ => true, true⟩ 7 8 9).2.1
      rfl rfl rfl,
   (aggregate_device_build_rollback ⟨true, true, false, true, true, [5, 6], fun _ => true, true⟩ 7 8 9).2.2.2.2.2.1
      (by rfl)⟩

/-! ## Listener uninstall on stream teardown

`audiounit_uninstall_device_changed_callback` (mod.rs lines 671-705)
attempts removal of each installed device-level listener in turn
(output-data-source, input-data-source, input-alive); a failed removal
is logged, recorded in the result, and does not stop the remaining
removals; the listener slot is cleared either way.
`audiounit_uninstall_system_changed_callback` (mod.rs lines 707-728)
removes default-output then default-input, but RETURNS an error on the
first failed removal — without logging, without clearing that listener's
slot and without attempting the remaining removal. -/

/-- The per-stream listener slots (mod.rs `AudioUnitStream` fields
`output_source_listener`, `input_source_listener`,
`input_alive_listener`, `default_output_listener`,
`default_input_listener`); `true` = the listener is installed. -/
structure StreamListeners where
  output_source_listener : Bool
  input_source_listener : Bool
  input_alive_listener : Bool
  default_output_listener : Bool
  default_input_listener : Bool
deriving DecidableEq, Repr

/-- Oracle for the HAL `AudioObjectRemovePropertyListener` calls, one
result per listener. -/
structure RemoveListenerHal where
  remove_output_source_ok : Bool
  remove_input_source_ok : Bool
  remove_input_alive_ok : Bool
  remove_default_output_ok : Bool
  remove_default_input_ok : Bool
deriving DecidableEq, Repr

/-- Result of `audiounit_uninstall_device_changed_callback`: the
returned status (`true` = `Ok`), the updated listener slots, and which
removals were attempted against the HAL. -/
structure DeviceUninstallResult where
  ok : Bool
  listeners : StreamListeners
  attempted_output_source : Bool
  attempted_input_source : Bool
  attempted_input_alive : Bool
deriving DecidableEq, Repr

/-- `audiounit_uninstall_device_changed_callback`
(mod.rs lines 671-705). -/
def audiounit_uninstall_device_changed_callback (s : StreamListeners)
    (h : RemoveListenerHal) : DeviceUninstallResult :=
  let fail_os := s.output_source_listener && !h.remove_output_source_ok
  let fail_is := s.input_source_listener && !h.remove_input_source_ok
  let fail_ia := s.input_alive_listener && !h.remove_input_alive_ok
  { ok := !(fail_os || fail_is || fail_ia)
    listeners := { s with output_source_listener := false,
                          input_source_listener := false,
                          input_alive_listener := false }
    attempted_output_source := s.output_source_listener
    attempted_input_source := s.input_source_listener
    attempted_input_alive := s.input_alive_listener }

/-- Result of `audiounit_uninstall_system_changed_callback`. -/
structure SystemUninstallResult where
  ok : Bool
  listeners : StreamListeners
  attempted_default_output : Bool
  attempted_default_input : Bool
deriving DecidableEq, Repr

/-- `audiounit_uninstall_system_changed_callback`
(mod.rs lines 707-728): early `return Err` on the first failed removal,
leaving that slot set and skipping the remaining listener. -/
def audiounit_uninstall_system_changed_callback (s : StreamListeners)
    (h : RemoveListenerHal) : SystemUninstallResult :=
  if s.default_output_listener ∧ h.remove_default_output_ok = false then
    ⟨false, s, true, false⟩
  else
    let s1 := { s with default_output_listener := false }
    if s1.default_input_listener ∧ h.remove_default_input_ok = false then
      ⟨false, s1, s.default_output_listener, true⟩
    else
      ⟨true, { s1 with default_input_listener := false },
       s.default_output_listener, s.default_input_listener⟩

/-- Counterexample to C7 as stated: with both system-level listeners
installed and the default-output removal failing, the default-input
removal is never attempted (and the failed listener's slot stays set) —
contradicting the claim that a failed removal does not prevent the
remaining system-level removals from being attempted. -/
theorem system_uninstall_stops_after_failure :
    audiounit_uninstall_system_changed_callback
        ⟨false, false, false, true, true⟩
        ⟨true, true, true, false, true⟩
      = ⟨false, ⟨false, false, false, true, true⟩, true, false⟩ := by
  decide

/-- C7 (amended): on teardown every installed device-level listener's
removal is attempted regardless of earlier failures (a failure is
recorded in the non-fatal result and the slot is cleared either way),
but the system-level uninstall aborts on its first failed removal: a
failing default-output removal returns an error without attempting the
default-input removal and leaves the failed slot set. -/
theorem uninstall_listener_independence (s : StreamListeners) (h : RemoveListenerHal) :
    ((audiounit_uninstall_device_changed_callback s h).attempted_output_source
        = s.output_source_listener ∧
     (audiounit_uninstall_device_changed_callback s h).attempted_input_source
        = s.input_source_listener ∧
     (audiounit_uninstall_device_changed_callback s h).attempted_input_alive
        = s.input_alive_listener) ∧
    ((audiounit_uninstall_device_changed_callback s h).listeners.output_source_listener
        = false ∧
     (audiounit_uninstall_device_changed_callback s h).listeners.input_source_listener
        = false ∧
     (audiounit_uninstall_device_changed_callback s h).listeners.input_alive_listener
        = false) ∧
    ((audiounit_uninstall_device_changed_callback s h).ok = false ↔
      (s.output_source_listener = true ∧ h.remove_output_source_ok = false) ∨
      (s.input_source_listener = true ∧ h.remove_input_source_ok = false) ∨
      (s.input_alive_listener = true ∧ h.remove_input_alive_ok = false)) ∧
    (s.default_output_listener = true → h.remove_default_output_ok = false →
      audiounit_uninstall_system_changed_callback s h = ⟨false, s, true, false⟩) ∧
    ((s.default_output_listener = false ∨ h.remove_default_output_ok = true) →
      (audiounit_uninstall_system_changed_callback s h).attempted_default_input
        = s.default_input_listener) := by
  refine ⟨⟨rfl, rfl, rfl⟩, ⟨rfl, rfl, rfl⟩, ?_, ?_, ?_⟩
  · simp only [audiounit_uninstall_device_changed_callback, Bool.not_eq_true',
      Bool.not_eq_false, Bool.or_eq_true, Bool.and_eq_true, Bool.not_eq_true]
    cases s.output_source_listener <;> cases s.input_source_listener <;>
      cases s.input_alive_listener <;>
      cases h.remove_output_source_ok <;> cases h.remove_input_source_ok <;>
      cases h.remove_input_alive_ok <;> simp
  · intro hout hfail
    simp [audiounit_uninstall_system_changed_callback, hout, hfail]
  · intro hok
    cases hok with
    | inl hno =>
      simp [audiounit_uninstall_system_changed_callback, hno]
      by_cases hin : s.default_input_listener = true ∧ h.remove_default_input_ok = false <;>
        simp [hin]
    | inr hyes =>
      simp [audiounit_uninstall_system_changed_callback, hyes]
      by_cases hin : s.default_input_listener = true ∧ h.remove_default_input_ok = false <;>
        simp [hin]

/-- Witness for the amended C7: all three device-level listeners
installed, the middle removal failing — all three removals are still
attempted, all slots cleared, the result non-fatally reports the
failure; and a system-level default-output failure aborts before the
default-input removal. -/
theorem uninstall_listener_independence_witness :
    ((audiounit_uninstall_device_changed_callback
        ⟨true, true, true, true, true⟩ ⟨true, false, true, false, true⟩).attempted_output_source
        = true ∧
     (audiounit_uninstall_device_changed_callback
        ⟨true, true, true, true, true⟩ ⟨true, false, true, false, true⟩).attempted_input_source
        = true ∧
     (audiounit_uninstall_device_changed_callback
        ⟨true, true, true, true, true⟩ ⟨true, false, true, false, true⟩).attempted_input_alive
        = true) ∧
    (audiounit_uninstall_device_changed_callback
        ⟨true, true, true, true, true⟩ ⟨true, false, true, false, true⟩).ok = false ∧
    audiounit_uninstall_system_changed_callback
        ⟨true, true, true, true, true⟩ ⟨true, false, true, false, true⟩
      = ⟨false, ⟨true, true, true, true, true⟩, true, false⟩ :=
  ⟨(uninstall_listener_independence ⟨true, true, true, true, true⟩
      ⟨true, false, true, false, true⟩).1,
   (uninstall_listener_independence ⟨true, true, true, true, true⟩
      ⟨true, false, true, false, true⟩).2.2.1.mpr (Or.inr (Or.inl ⟨rfl, rfl⟩)),
   (uninstall_listener_independence ⟨true, true, true, true, true⟩
      ⟨true, false, true, false, true⟩).2.2.2.1 rfl rfl⟩

/-! ## Device enumeration filtering

`audiounit_get_devices_of_type` (mod.rs lines 2647-2713) reads the raw
HAL device list, drops every device whose UID-name contains the private
aggregate marker (`CFStringFind` against `PRIVATE_AGGREGATE_DEVICE_NAME`;
a device whose name cannot be read is kept), sorts by id, and — unless
both directions were requested — keeps only devices with channels in the
requested scope.  `enumerate_devices` (mod.rs lines 2982-3045)
additionally builds a `cubeb_device_info` per remaining id and skips it
when that fails or when `is_aggregate_device` (lines 2608-2618, a
`strncmp` prefix test on the friendly name) recognizes it. -/

/-- mod.rs line 66. -/
def PRIVATE_AGGREGATE_DEVICE_NAME : List Char := "CubebAggregateDevice".toList

/-- One raw HAL device: id, UID-name as returned by `get_device_name`
(`none` models a null `CFStringRef`), and per-scope channel counts. -/
structure HalDevice where
  id : Nat
  name : Option (List Char)
  in_channels : Nat
  out_channels : Nat
deriving DecidableEq, Repr

/-- The `DeviceType` argument of `audiounit_get_devices_of_type`;
`inputOutput` models a flag set containing both directions. -/
inductive DeviceType
  | input
  | output
  | inputOutput
deriving DecidableEq, Repr

/-- Model of `CFStringFind(name, pat, 0).location != kCFNotFound`:
the pattern occurs as a contiguous substring. -/
def cf_string_contains (pat : List Char) : List Char → Bool
  | [] => pat.isEmpty
  | c :: rest => pat.isPrefixOf (c :: rest) || cf_string_contains pat rest

/-- Insertion step of the id sort modelling `devices.sort()`. -/
def insert_by_id (d : HalDevice) : List HalDevice → List HalDevice
  | [] => [d]
  | e :: rest => if d.id ≤ e.id then d :: e :: rest else e :: insert_by_id d rest

/-- `devices.sort()` (mod.rs line 2693). -/
def sort_by_id : List HalDevice → List HalDevice
  | [] => []
  | d :: rest => insert_by_id d (sort_by_id rest)

/-- `audiounit_get_devices_of_type` (mod.rs lines 2647-2713): retain the
devices whose name does not contain the private aggregate marker (null
names are kept, line 2671-2673), sort by id, then filter by channel
count in the requested scope unless both directions were requested
(the non-input scope covers the unknown-devtype quirk of lines
2698-2704, which uses the output scope). -/
def audiounit_get_devices_of_type (hal : List HalDevice) (devtype : DeviceType) :
    List HalDevice :=
  let devices := hal.filter fun d =>
    match d.name with
    | none => true
    | some n => !cf_string_contains PRIVATE_AGGREGATE_DEVICE_NAME n
  let devices := sort_by_id devices
  if devtype = DeviceType.inputOutput then devices
  else devices.filter fun d =>
    (if devtype = DeviceType.input then d.in_channels else d.out_channels) > 0

/-- The `cubeb_device_info` fields relevant here. -/
structure CubebDeviceInfo where
  devid : Nat
  friendly_name : List Char
deriving DecidableEq, Repr

/-- `is_aggregate_device` (mod.rs lines 2608-2618): `strncmp` of the
friendly name against the private marker over the marker's length,
i.e. a prefix test. -/
def is_aggregate_device (device_info : CubebDeviceInfo) : Bool :=
  PRIVATE_AGGREGATE_DEVICE_NAME.isPrefixOf device_info.friendly_name

/-- One direction of `enumerate_devices` (mod.rs lines 3009-3029):
build a device info per enumerated id via
`audiounit_create_device_from_hwdev` (modelled by the `create` oracle;
`none` = `is_err()`), skipping failures and private aggregates. -/
def enumerate_devices_for_type (hal : List HalDevice)
    (create : Nat → Option CubebDeviceInfo) (devtype : DeviceType) :
    List CubebDeviceInfo :=
  (audiounit_get_devices_of_type hal devtype).filterMap fun dev =>
    match create dev.id with
    | none => none
    | some d => if is_aggregate_device d then none else some d

/-- `enumerate_devices` (mod.rs lines 2982-3045): output devices first,
then input devices, as requested. -/
def enumerate_devices (hal : List HalDevice)
    (create : Nat → Option CubebDeviceInfo) (want_output want_input : Bool) :
    List CubebDeviceInfo :=
  (if want_output then enumerate_devices_for_type hal create DeviceType.output else [])
    ++ (if want_input then enumerate_devices_for_type hal create DeviceType.input else [])

theorem cf_string_contains_of_isPrefixOf (pat l : List Char)
    (hp : pat.isPrefixOf l = true) : cf_string_contains pat l = true := by
  cases l with
  | nil =>
    cases pat with
    | nil => rfl
    | cons c cs => simp [List.isPrefixOf] at hp
  | cons c rest => simp [cf_string_contains, hp]

theorem mem_insert_by_id (d x : HalDevice) (l : List HalDevice) :
    x ∈ insert_by_id d l ↔ x = d ∨ x ∈ l := by
  induction l with
  | nil => simp [insert_by_id]
  | cons e rest ih =>
    by_cases hle : d.id ≤ e.id <;>
      simp [insert_by_id, hle, ih] <;>
      tauto

theorem mem_sort_by_id (x : HalDevice) (l : List HalDevice) :
    x ∈ sort_by_id l ↔ x ∈ l := by
  induction l with
  | nil => simp [sort_by_id]
  | cons d rest ih => simp [sort_by_id, mem_insert_by_id, ih]

theorem get_devices_of_type_no_private_name (hal : List HalDevice)
    (devtype : DeviceType) (d : HalDevice)
    (hmem : d ∈ audiounit_get_devices_of_type hal devtype) (n : List Char)
    (hname : d.name = some n) :
    PRIVATE_AGGREGATE_DEVICE_NAME.isPrefixOf n = false := by
  have hmem2 : d ∈ sort_by_id (hal.filter fun e =>
      match e.name with
      | none => true
      | some m => !cf_string_contains PRIVATE_AGGREGATE_DEVICE_NAME m) := by
    simp only [audiounit_get_devices_of_type] at hmem
    by_cases hio : devtype = DeviceType.inputOutput
    · simpa [hio] using hmem
    · simp only [hio, if_false] at hmem
      exact (List.mem_filter.mp hmem).1
  have hkeep := (List.mem_filter.mp ((mem_sort_by_id _ _).mp hmem2)).2
  rw [hname] at hkeep
  simp only [Bool.not_eq_true'] at hkeep
  by_contra hpref
  have hp : PRIVATE_AGGREGATE_DEVICE_NAME.isPrefixOf n = true := by
    cases hb : PRIVATE_AGGREGATE_DEVICE_NAME.isPrefixOf n with
    | false => exact absurd hb hpref
    | true => rfl
  rw [cf_string_contains_of_isPrefixOf _ _ hp] at hkeep
  cases hkeep

/-- C8: no enumeration result contains an engine-created private
aggregate device: every raw device whose readable name begins with the
private aggregate marker is absent from
`audiounit_get_devices_of_type`'s result (it is dropped by the
substring filter), and every device info returned by
`enumerate_devices` fails the `is_aggregate_device` prefix test. -/
theorem device_enumeration_excludes_private_aggregates (hal : List HalDevice)
    (create : Nat → Option CubebDeviceInfo) (devtype : DeviceType)
    (want_output want_input : Bool) :
    (∀ d ∈ audiounit_get_devices_of_type hal devtype, ∀ n, d.name = some n →
      PRIVATE_AGGREGATE_DEVICE_NAME.isPrefixOf n = false) ∧
    (∀ d ∈ enumerate_devices hal create want_output want_input,
      is_aggregate_device d = false) := by
  constructor
  · intro d hmem n hname
    exact get_devices_of_type_no_private_name hal devtype d hmem n hname
  · intro d hmem
    simp only [enumerate_devices, List.mem_append] at hmem
    have hpart : ∀ t : DeviceType, d ∈ enumerate_devices_for_type hal create t →
        is_aggregate_device d = false := by
      intro t hm
      simp only [enumerate_devices_for_type, List.mem_filterMap] at hm
      obtain ⟨dev, _, hcr⟩ := hm
      cases hc : create dev.id with
      | none => rw [hc] at hcr; cases hcr
      | some di =>
        rw [hc] at hcr
        by_cases hagg : is_aggregate_device di
        · simp [hagg] at hcr
        · simp [hagg] at hcr
          subst hcr
          simpa using hagg
    cases hmem with
    | inl hm =>
      by_cases hw : want_output
      · exact hpart _ (by simpa [hw] using hm)
      · simp [hw] at hm
    | inr hm =>
      by_cases hw : want_input
      · exact hpart _ (by simpa [hw] using hm)
      · simp [hw] at hm

/-- Witness for C8 on a concrete HAL: a private aggregate device named
with the reserved marker is dropped from both the raw listing and the
full enumeration, the ordinary device survives. -/
theorem device_enumeration_excludes_private_aggregates_witness :
    (∀ d ∈ audiounit_get_devices_of_type
        [⟨10, some "Built-in Output".toList, 0, 2⟩,
         ⟨11, some ("CubebAggregateDevice".toList ++ "_0".toList), 2, 2⟩]
        DeviceType.output,
      ∀ n, d.name = some n →
        PRIVATE_AGGREGATE_DEVICE_NAME.isPrefixOf n = false) ∧
    (∀ d ∈ enumerate_devices
        [⟨10, some "Built-in Output".toList, 0, 2⟩,
         ⟨11, some ("CubebAggregateDevice".toList ++ "_0".toList), 2, 2⟩]
        (fun i => some ⟨i, if i = 11 then "CubebAggregateDevice_0".toList
                          else "Built-in Output".toList⟩)
        true true,
      is_aggregate_device d = false) :=
  device_enumeration_excludes_private_aggregates _ _ DeviceType.output true true
